import Mathlib

/-!
Verification development for the cover-fetcher repository.

The definitions below are shallow embeddings of the program's data model
(`services/models.py`), the retriever layer (`retrievers/*.py`) and the
orchestrator (`services/service_manager.py`).  Pure data and control flow are
translated directly; external effects (HTTP calls, worker-pool submission,
concurrent interference on shared state, cancellation flags) are supplied by
explicit environment records so that every code path of the source functions
is reachable in the model.  Event emission through the orchestrator's
callbacks is modelled as appending the event to the output list (i.e. the
callbacks are registered and do not themselves raise).
-/

namespace CoverFetcher

/-! ## Data model: services/models.py -/

/-- `AlbumCandidate` from services/models.py.  `identifier` is an opaque
value; a `Nat` suffices for identity comparisons in the model. -/
structure AlbumCandidate where
  identifier : Nat
  album_name : Option String := none
  artist_name : Option String := none
  source_service : String := ""
  deriving Repr, DecidableEq

/-- `PotentialImage` from services/models.py.  `extra_data` keys that the
code reads (`width`, `height`, `discogs_image_type`) are modelled as explicit
optional fields. -/
structure PotentialImage where
  identifier : Nat
  thumbnail_url : String
  full_image_url : String
  source_candidate : AlbumCandidate
  original_type : Option String := none
  is_front : Bool := true
  deriving Repr, DecidableEq

/-- `ImageResult` from services/models.py (its stored dataclass fields;
`album_name` / `artist_name` are properties, defined below, not fields). -/
structure ImageResult where
  thumbnail_url : String
  full_image_url : String
  full_width : Int
  full_height : Int
  source_candidate : AlbumCandidate
  thumbnail_data : Option (List Nat) := none
  original_type : Option String := none
  source_potential_image_identifier : Option Nat := none
  is_front : Bool := true
  deriving Repr, DecidableEq

/-- The `source_service` property of `ImageResult`: reads through
`source_candidate`. -/
def ImageResult.src_service (r : ImageResult) : String :=
  r.source_candidate.source_service

/-- The `album_name` property of `ImageResult`: reads through
`source_candidate`. -/
def ImageResult.album_name (r : ImageResult) : Option String :=
  r.source_candidate.album_name

/-- The `artist_name` property of `ImageResult`: reads through
`source_candidate`. -/
def ImageResult.artist_name (r : ImageResult) : Option String :=
  r.source_candidate.artist_name

/-- The `**overrides` keyword arguments accepted by
`ImageResult.from_potential_image`.  Each field is `some v` when the caller
passed that key (so `init_data.update(overrides)` replaces the value) and
`none` when absent.  Keys that are not `__init__` fields of the dataclass
(such as the `album_name` property) would make `cls(**init_data)` raise a
`TypeError` rather than produce an `ImageResult`, so they do not appear. -/
structure Overrides where
  thumbnail_url : Option String := none
  full_image_url : Option String := none
  full_width : Option Int := none
  full_height : Option Int := none
  source_candidate : Option AlbumCandidate := none
  thumbnail_data : Option (Option (List Nat)) := none
  original_type : Option (Option String) := none
  source_potential_image_identifier : Option (Option Nat) := none
  is_front : Option Bool := none
  deriving Repr, DecidableEq

/-- `ImageResult.from_potential_image` from services/models.py: builds
`init_data` from the `PotentialImage`, sets `full_width` / `full_height`,
then applies `init_data.update(overrides)` and constructs the dataclass. -/
def ImageResult.from_potential_image (pi_ : PotentialImage) (full_width full_height : Int)
    (ov : Overrides) : ImageResult :=
  { thumbnail_url := ov.thumbnail_url.getD pi_.thumbnail_url
    full_image_url := ov.full_image_url.getD pi_.full_image_url
    full_width := ov.full_width.getD full_width
    full_height := ov.full_height.getD full_height
    source_candidate := ov.source_candidate.getD pi_.source_candidate
    thumbnail_data := ov.thumbnail_data.getD none
    original_type := ov.original_type.getD pi_.original_type
    source_potential_image_identifier :=
      ov.source_potential_image_identifier.getD (some pi_.identifier)
    is_front := ov.is_front.getD pi_.is_front }

/-! ## Base cancellation check: base_retriever.py `_check_cancelled`

`if cancel_event and cancel_event.is_set()` — an `Event` object is always
truthy, so the check is "the event is present and set".  A cancel event is
modelled as its `is_set` history, a function from checkpoint index to `Bool`;
`none` models the `cancel_event = None` default. -/

/-- `AbstractImageRetriever._check_cancelled` at checkpoint `t`. -/
def checkCancelled (cancel_event : Option (Nat → Bool)) (t : Nat) : Bool :=
  match cancel_event with
  | none => false
  | some isSet => isSet t

/-! ## Python string helpers used by the search-input guards -/

/-- Python `str.strip()` on a character list. -/
def pyStrip (s : List Char) : List Char :=
  ((s.dropWhile Char.isWhitespace).reverse.dropWhile Char.isWhitespace).reverse

/-- Python regex `\w` (word character): alphanumeric or underscore. -/
def isWordChar (c : Char) : Bool :=
  c.isAlphanum || c = '_'

/-- Last.fm cleaning of the combined query
(`f"{artist} {album}".replace('.', ' ').replace(':', ' ').replace('-', ' ').strip()`). -/
def lastfmQuery (artist album : List Char) : List Char :=
  pyStrip ((artist ++ [' '] ++ album).map fun c =>
    if c = '.' || c = ':' || c = '-' then ' ' else c)

/-- Bandcamp term cleaning: `re.sub(r'[^\w\s-]', ' ', term.strip()).strip()`. -/
def bandcampClean (s : List Char) : List Char :=
  pyStrip ((pyStrip s).map fun c =>
    if isWordChar c || c.isWhitespace || c = '-' then c else ' ')

/-- VGMdb query cleaning: `re.sub(r'[^\w\s\-.:()]', ' ', album.strip()).strip()`. -/
def vgmdbQuery (album : List Char) : List Char :=
  pyStrip ((pyStrip album).map fun c =>
    if isWordChar c || c.isWhitespace || c = '-' || c = '.' || c = ':' ||
        c = '(' || c = ')' then c else ' ')

/-- iTunes search term: `f"{artist} {album}".strip()` with `artist` coerced
from a falsy value to `""` first. -/
def itunesTerm (artist album : List Char) : List Char :=
  pyStrip (artist ++ [' '] ++ album)

/-! ## Search-call entry guards (C4)

For each retriever, `search_album_candidates` begins with a fixed prefix of
checks before any network call: Discogs first requires a configured token and
an initialized client, every retriever returns `[]` when the cancel event is
already set at the entry checkpoint, and an emptiness check on the inputs
raises `RetrieverInputError`.  The guard outcome classifies how that prefix
exits. -/

/-- How the entry guard of a `search_album_candidates` implementation exits:
raising `RetrieverInputError`, raising a non-input `RetrieverError`,
returning the empty list (cancellation), or proceeding to the backend
query. -/
inductive SearchStart where
  | raisesInput
  | raisesOther
  | returnsEmpty
  | proceeds
  deriving Repr, DecidableEq

/-- The six registered retriever services. -/
inductive RetrieverKind where
  | musicbrainz
  | discogs
  | lastfm
  | bandcamp
  | vgmdb
  | itunes
  deriving Repr, DecidableEq

/-- Call-time context for the entry guard: whether the cancel event is set at
the entry checkpoint, and (Discogs only) whether a personal access token was
configured and the client constructed successfully in `__init__`. -/
structure GuardCtx where
  cancelled : Bool
  hasToken : Bool
  clientReady : Bool
  deriving Repr, DecidableEq

/-- Entry guard of `MusicBrainzRetriever.search_album_candidates`
(musicbrainz.py lines 38-46). -/
def mbGuard (ctx : GuardCtx) (artist album : String) : SearchStart :=
  if ctx.cancelled then .returnsEmpty
  else if album = "" && artist = "" then .raisesInput
  else .proceeds

/-- Entry guard of `DiscogsRetriever.search_album_candidates`
(discogs.py lines 42-59): the token and client checks come before the
cancellation and emptiness checks and raise plain `RetrieverError`. -/
def discogsGuard (ctx : GuardCtx) (artist album : String) : SearchStart :=
  if !ctx.hasToken then .raisesOther
  else if !ctx.clientReady then .raisesOther
  else if ctx.cancelled then .returnsEmpty
  else if album = "" && artist = "" then .raisesInput
  else .proceeds

/-- Entry guard of `LastFmRetriever.search_album_candidates`
(lastfm.py lines 53-64). -/
def lastfmGuard (ctx : GuardCtx) (artist album : String) : SearchStart :=
  if ctx.cancelled then .returnsEmpty
  else if lastfmQuery artist.toList album.toList = [] then .raisesInput
  else .proceeds

/-- Entry guard of `BandcampRetriever.search_album_candidates`
(bandcamp.py lines 54-71): a query part is kept for each of album and artist
that is non-empty and cleans to a non-empty term. -/
def bandcampGuard (ctx : GuardCtx) (artist album : String) : SearchStart :=
  if ctx.cancelled then .returnsEmpty
  else
    let albumPart : List (List Char) :=
      if album ≠ "" && bandcampClean album.toList ≠ [] then [bandcampClean album.toList] else []
    let artistPart : List (List Char) :=
      if artist ≠ "" && bandcampClean artist.toList ≠ [] then [bandcampClean artist.toList] else []
    if albumPart ++ artistPart = [] then .raisesInput else .proceeds

/-- Entry guard of `VGMdbRetriever.search_album_candidates`
(vgmdb.py lines 77-90): only the album term feeds the query. -/
def vgmdbGuard (ctx : GuardCtx) (artist album : String) : SearchStart :=
  if ctx.cancelled then .returnsEmpty
  else if vgmdbQuery album.toList = [] then .raisesInput
  else .proceeds

/-- Entry guard of `ITunesRetriever.search_album_candidates`
(itunes.py lines 72-82). -/
def itunesGuard (ctx : GuardCtx) (artist album : String) : SearchStart :=
  if ctx.cancelled then .returnsEmpty
  else if itunesTerm artist.toList album.toList = [] then .raisesInput
  else .proceeds

/-- Dispatch of the entry guard by service. -/
def searchGuard (k : RetrieverKind) (ctx : GuardCtx) (artist album : String) : SearchStart :=
  match k with
  | .musicbrainz => mbGuard ctx artist album
  | .discogs => discogsGuard ctx artist album
  | .lastfm => lastfmGuard ctx artist album
  | .bandcamp => bandcampGuard ctx artist album
  | .vgmdb => vgmdbGuard ctx artist album
  | .itunes => itunesGuard ctx artist album

/-! ## Orchestrator events and per-service state: service_manager.py -/

/-- The lifecycle events the orchestrator can emit for one service (event
emission = invoking the corresponding registered callback).  Payloads that
no claim inspects (service name, error message) are omitted. -/
inductive Event where
  | albumSearchSucceeded (numCandidates : Nat)
  | potentialImageFound (p : PotentialImage)
  | imageResolved
  | batchCompleted (hasMore : Bool)
  | batchCancelled
  | batchErrored
  | serviceError
  | allSearchesConcluded
  deriving Repr, DecidableEq

/-- `ServiceProcessingState`: the queue fields mutated by the batch-fill
loop (the cancel event is modelled by the environment's oracle, and the
informational resolved-images counter is not read by any claim). -/
structure SvcState where
  candidatesQueue : List AlbumCandidate
  currentPIs : List PotentialImage
  activeCandidate : Option AlbumCandidate
  isListing : Bool
  allProcessed : Bool
  deriving Repr, DecidableEq

/-- Environment of one `_process_image_batch_for_service` invocation.
`cancel k` is the answer of the k-th `_check_cancelled` call (covering both
the shutdown and the per-service event); `listing k` is the outcome of the
k-th `retriever.list_potential_images` call; `interfere k` is the net effect
of concurrent mutation on the service state during the k-th window in which
the per-service lock is released; `submitOk k` tells whether the k-th
`executor.submit` succeeds (it raises, e.g. `RuntimeError`, once the
executor is shut down). -/
structure BatchEnv where
  cancel : Nat → Bool
  listing : Nat → Except Unit (List PotentialImage)
  interfere : Nat → SvcState → SvcState
  submitOk : Nat → Bool

/-- Running context of a batch-fill invocation: the service state as seen
under the lock, the `sent_this_batch` counter, the per-oracle call counters
and the events emitted so far. -/
structure BatchCtx where
  state : SvcState
  sent : Nat
  cIdx : Nat
  lIdx : Nat
  iIdx : Nat
  sIdx : Nat
  events : List Event

/-- One `_check_cancelled` call: reads the oracle and advances its index. -/
def BatchCtx.check (ctx : BatchCtx) (env : BatchEnv) : Bool × BatchCtx :=
  (env.cancel ctx.cIdx, { ctx with cIdx := ctx.cIdx + 1 })

/-- Emit one event (invoke the registered callback). -/
def BatchCtx.emit (ctx : BatchCtx) (e : Event) : BatchCtx :=
  { ctx with events := ctx.events ++ [e] }

/-- A window in which the per-service lock is released (sleep or listing
call): concurrent interference may rewrite the service state; reacquiring
the lock re-reads `self._service_data[service_name]`. -/
def BatchCtx.interfereStep (ctx : BatchCtx) (env : BatchEnv) : BatchCtx :=
  { ctx with state := env.interfere ctx.iIdx ctx.state, iIdx := ctx.iIdx + 1 }

/-- One `retriever.list_potential_images` call (made with the lock
released). -/
def BatchCtx.listingStep (ctx : BatchCtx) (env : BatchEnv) :
    Except Unit (List PotentialImage) × BatchCtx :=
  (env.listing ctx.lIdx, { ctx with lIdx := ctx.lIdx + 1 })

/-- One `executor.submit` call. -/
def BatchCtx.submitStep (ctx : BatchCtx) (env : BatchEnv) : Bool × BatchCtx :=
  (env.submitOk ctx.sIdx, { ctx with sIdx := ctx.sIdx + 1 })

/-- How the batch-fill `while` loop relinquishes control: normal
exit/`break`, an exception escaping the loop body, or out of fuel (modelling
an execution that never leaves the wait-for-listing loop). -/
inductive LoopExit where
  | finished (ctx : BatchCtx)
  | raised (ctx : BatchCtx)
  | diverged

/-- Result of one straight-line pass over lines 414-424 of
service_manager.py (dispatch one `PotentialImage` if available, then the
post-dispatch active-candidate cleanup). -/
inductive StepRes where
  | leave (e : LoopExit)
  | next (ctx : BatchCtx)

/-- Lines 422-424 of `_process_image_batch_for_service`: after the
dispatch step, an exhausted image backlog with an active candidate clears
the active candidate (provided no cancellation is observed), and the loop
goes round again. -/
def sendTail (env : BatchEnv) (ctx : BatchCtx) : StepRes :=
  if ctx.state.currentPIs.isEmpty && ctx.state.activeCandidate.isSome then
    let (c, ctx) := ctx.check env
    if !c then
      .next { ctx with state := { ctx.state with activeCandidate := none } }
    else .next ctx
  else .next ctx

/-- Lines 414-424 of `_process_image_batch_for_service`: if the image
backlog is non-empty, pop one `PotentialImage`, emit `PotentialImageFound`,
submit it for resolution (a failing submit raises out of the loop) and
count it toward the batch; then the post-dispatch cleanup (`sendTail`). -/
def sendStep (env : BatchEnv) (ctx : BatchCtx) : StepRes :=
  match ctx.state.currentPIs with
  | [] => sendTail env ctx
  | p :: ps =>
    let (c, ctx) := ctx.check env
    if c then .leave (.finished ctx)
    else
      let ctx := { ctx with state := { ctx.state with currentPIs := ps } }
      let ctx := ctx.emit (.potentialImageFound p)
      let (ok, ctx) := ctx.submitStep env
      if ok then sendTail env { ctx with sent := ctx.sent + 1 }
      else .leave (.raised ctx)

/-- Lines 392-424 of `_process_image_batch_for_service`: after the listing
call returns (`newPIs` are the possibly front-filtered results, `copied`
the candidate copy taken before releasing the lock), reacquire the lock,
check cancellation, merge the results back only if the active candidate is
unchanged, clear the listing flag, and either move straight on to the next
candidate (when no images were obtained) or fall through to the dispatch
step. -/
def afterListing (env : BatchEnv) (copied : AlbumCandidate)
    (newPIs : List PotentialImage) (ctx : BatchCtx) : StepRes :=
  let ctx := ctx.interfereStep env
  let (c, ctx) := ctx.check env
  if c then .leave (.finished ctx)
  else
    let sameActive :=
      ctx.state.activeCandidate.any fun a =>
        AlbumCandidate.identifier a = copied.identifier
    let ctx :=
      if sameActive then
        { ctx with state :=
          { ctx.state with currentPIs := ctx.state.currentPIs ++ newPIs } }
      else ctx
    let ctx :=
      if sameActive then
        { ctx with state := { ctx.state with isListing := false } }
      else if ctx.state.activeCandidate = none then
        { ctx with state := { ctx.state with isListing := false } }
      else ctx
    if ctx.state.currentPIs.isEmpty then
      let (c, ctx) := ctx.check env
      if !c then
        let ctx :=
          if sameActive then
            { ctx with state := { ctx.state with activeCandidate := none } }
          else ctx
        .next ctx
      else sendStep env ctx
    else sendStep env ctx

/-- One iteration of the `while sent_this_batch < num_to_send` loop body of
`_process_image_batch_for_service` (lines 356-424).  Each branch mirrors
the source: cancellation breaks; an exhausted state breaks; waiting on an
in-flight listing releases the lock, sleeps, re-checks and goes round
again; otherwise the next candidate is popped and listed with the lock
released (`listingStep`), an uncancelled listing failure emits
`ServiceError`, and control continues in `afterListing`. -/
def batchBody (env : BatchEnv) (frontOnly : Bool) (ctx : BatchCtx) : StepRes :=
  let (c, ctx) := ctx.check env
  if c then .leave (.finished ctx)
  else
    match ctx.state.currentPIs with
    | _ :: _ => sendStep env ctx
    | [] =>
      if ctx.state.allProcessed then .leave (.finished ctx)
      else if ctx.state.isListing then
        let (c, ctx) := ctx.check env
        if c then .leave (.finished ctx)
        else
          let ctx := ctx.interfereStep env
          let (c, ctx) := ctx.check env
          if c then .leave (.finished ctx)
          else .next ctx
      else
        match ctx.state.candidatesQueue with
        | [] =>
          .leave (.finished { ctx with state := { ctx.state with allProcessed := true } })
        | cand :: rest =>
          let ctx := { ctx with state :=
            { ctx.state with candidatesQueue := rest,
                             activeCandidate := some cand, isListing := true } }
          let (c, ctx) := ctx.check env
          if c then .leave (.finished ctx)
          else
            let (lres, ctx) := ctx.listingStep env
            match lres with
            | .ok pis =>
              afterListing env cand
                (if frontOnly then pis.filter (fun p => PotentialImage.is_front p)
                 else pis) ctx
            | .error _ =>
              let (c, ctx) := ctx.check env
              if c then afterListing env cand [] ctx
              else afterListing env cand [] (ctx.emit .serviceError)

/-- The `while sent_this_batch < num_to_send` loop (lines 355-424),
fuel-bounded: evaluate the loop condition, run one body iteration, and
continue on a `.next` result. -/
def batchLoop (env : BatchEnv) (numToSend : Nat) (frontOnly : Bool) :
    Nat → BatchCtx → LoopExit
  | 0, _ => .diverged
  | fuel + 1, ctx =>
    if ctx.sent < numToSend then
      match batchBody env frontOnly ctx with
      | .leave e => e
      | .next ctx2 => batchLoop env numToSend frontOnly fuel ctx2
    else .finished ctx

/-- Result of one full `_process_image_batch_for_service` invocation. -/
inductive BatchResult where
  | done (events : List Event)
  | diverged
  deriving DecidableEq

/-- Lines 427-458 of `_process_image_batch_for_service`: the final outcome
after the loop relinquishes control — the end-of-try outcome determination
(cancelled vs. completed-with-has-more) and the exception handler (which
checks cancellation before reporting a batch error, preferring
`ServiceBatchCancelled`). -/
def finishBatch (env : BatchEnv) : LoopExit → BatchResult
  | .diverged => .diverged
  | .finished ctx =>
    let (c, ctx) := ctx.check env
    if c then .done (ctx.events ++ [.batchCancelled])
    else
      let hasMore := !ctx.state.currentPIs.isEmpty ||
        !ctx.state.candidatesQueue.isEmpty || ctx.state.isListing
      .done (ctx.events ++ [.batchCompleted hasMore])
  | .raised ctx =>
    let (c, ctx) := ctx.check env
    if c then .done (ctx.events ++ [.batchCancelled])
    else .done (ctx.events ++ [.batchErrored])

/-- `_process_image_batch_for_service` (lines 329-458): the entry
cancellation check under the lock, the batch loop, and the outcome
determination / exception handler. -/
def processImageBatch (env : BatchEnv) (numToSend : Nat) (frontOnly : Bool)
    (st0 : SvcState) (fuel : Nat) : BatchResult :=
  let ctx0 : BatchCtx :=
    { state := st0, sent := 0, cIdx := 0, lIdx := 0, iIdx := 0, sIdx := 0, events := [] }
  let (c, ctx0) := ctx0.check env
  if c then .done (ctx0.events ++ [.batchCancelled])
  else finishBatch env (batchLoop env numToSend frontOnly fuel ctx0)

/-! ## Initial search task: `_search_and_process_initial_batch` -/

/-- The shared-counter block run when an initial search task concludes
(lines 229-232, 238-241 and 279-284 of service_manager.py, all identical):
under the global lock, decrement `_active_search_services_count` if
positive, and fire `AllSearchesConcluded` exactly when the counter is now
zero and no shutdown is in progress. -/
def concludeEvents (countBefore : Nat) (shutdown : Bool) : List Event :=
  let c := if 0 < countBefore then countBefore - 1 else countBefore
  if c = 0 && !shutdown then [.allSearchesConcluded] else []

/-- Environment of one `_search_and_process_initial_batch` task.  `cancel k`
answers its k-th `_check_cancelled` call (shutdown or service event);
`searchResult` is the outcome of `retriever.search_album_candidates`;
`stExisting` is the service state found under the lock; `countBefore` and
`shutdownAtConclusion` feed the single counter block this task executes. -/
structure InitEnv where
  cancel : Nat → Bool
  stillConfigured : Bool
  searchResult : Except Unit (List AlbumCandidate)
  stExisting : SvcState
  batchEnv : BatchEnv
  initialBatchSize : Nat
  frontOnly : Bool
  fuel : Nat
  countBefore : Nat
  shutdownAtConclusion : Bool

/-- `_search_and_process_initial_batch` (lines 212-284): the two pre-try
skip paths, the try body (search, `ServiceAlbumSearchSucceeded`, then either
an inline batch fill or an immediate `BatchCompletedSuccessfully(false)`),
the exception handler (which suppresses both error events when cancellation
is observed), and the `finally` counter block, which runs on every path
through the try. -/
def initialSearch (env : InitEnv) : BatchResult :=
  if env.cancel 0 then .done (concludeEvents env.countBefore env.shutdownAtConclusion)
  else if !env.stillConfigured then
    .done (concludeEvents env.countBefore env.shutdownAtConclusion)
  else
    if env.cancel 1 then .done (concludeEvents env.countBefore env.shutdownAtConclusion)
    else
      match env.searchResult with
      | .error _ =>
        let e1 : List Event := if !env.cancel 2 then [.serviceError] else []
        let e2 : List Event := if !env.cancel 3 then [.batchErrored] else []
        .done (e1 ++ e2 ++ concludeEvents env.countBefore env.shutdownAtConclusion)
      | .ok candidates =>
        if env.cancel 2 then
          .done (concludeEvents env.countBefore env.shutdownAtConclusion)
        else
          let pre := [Event.albumSearchSucceeded candidates.length]
          if env.cancel 3 then
            .done (pre ++ concludeEvents env.countBefore env.shutdownAtConclusion)
          else
            match candidates with
            | [] =>
              .done (pre ++ [Event.batchCompleted false] ++
                concludeEvents env.countBefore env.shutdownAtConclusion)
            | _ :: _ =>
              let st0 := { env.stExisting with
                candidatesQueue := env.stExisting.candidatesQueue ++ candidates }
              match processImageBatch env.batchEnv env.initialBatchSize env.frontOnly
                  st0 env.fuel with
              | .diverged => .diverged
              | .done es =>
                .done (pre ++ es ++
                  concludeEvents env.countBefore env.shutdownAtConclusion)

/-! ## `request_more_for_service` (lines 286-327) -/

/-- Call-time facts read by `request_more_for_service`: the shutdown flag,
the caller-passed `current_active_services_config`, the target service name,
whether the service has a retriever instance and a state instance, and
whether its cancel event is set. -/
structure ReqMoreCtx where
  shutdown : Bool
  config : List (String × Bool)
  serviceName : String
  retrieverKnown : Bool
  stateKnown : Bool
  cancelSet : Bool

/-- Result of `request_more_for_service`: the events emitted synchronously
and whether a batch-fill task was submitted to the processing pool. -/
structure ReqMoreResult where
  events : List Event
  submitted : Bool
  deriving DecidableEq

/-- `request_more_for_service`: shutdown or a disabled service acknowledge
with `ServiceBatchCancelled`; an enabled but unknown/uninitialized service
emits `ServiceError` then `ServiceBatchErrored`; an already-cancelled
service acknowledges with `ServiceBatchCancelled`; otherwise one batch-fill
task is submitted for the service's existing queued state. -/
def requestMoreForService (c : ReqMoreCtx) : ReqMoreResult :=
  if c.shutdown then { events := [.batchCancelled], submitted := false }
  else if !(c.config.any fun nb => nb.1 = c.serviceName && nb.2) then
    { events := [.batchCancelled], submitted := false }
  else if !c.retrieverKnown || !c.stateKnown then
    { events := [.serviceError, .batchErrored], submitted := false }
  else if c.cancelSet then { events := [.batchCancelled], submitted := false }
  else { events := [], submitted := true }

/-! ## Session-level completion counter (C2)

`start_album_art_search` initializes `_active_search_services_count` to the
number of schedulable services and clears those services' cancel events;
each service's initial search concludes through exactly one counter block
(`concludeEvents` above); `cancel_current_search` sets the cancel events of
the enabled services of the current search and, when it found nothing left
to signal and the counter is already zero, fires `AllSearchesConcluded`
again (lines 501-521). -/

/-- Global session state: the in-flight counter, the enabled services'
cancel flags, and how many times `AllSearchesConcluded` has fired. -/
structure SessSt where
  count : Nat
  flags : List Bool
  fired : Nat
  deriving DecidableEq, Repr

/-- Counter interactions during a search session (with no shutdown): one
service's initial-search task concluding, or one `cancel_current_search`
invocation. -/
inductive SessStep where
  | conclude
  | cancelSearch
  deriving DecidableEq, Repr

/-- One session step.  `conclude` is the counter block of
`_search_and_process_initial_batch`; `cancelSearch` is
`cancel_current_search`: set every enabled service's cancel flag, and if
none needed signalling while the counter is zero, fire the concluded event
again. -/
def sessStep (s : SessSt) (st : SessStep) : SessSt :=
  match st with
  | .conclude =>
    let c := if 0 < s.count then s.count - 1 else s.count
    { s with count := c, fired := if c = 0 then s.fired + 1 else s.fired }
  | .cancelSearch =>
    let signalled := (s.flags.filter fun b => !b).length
    { count := s.count
      flags := s.flags.map fun _ => true
      fired := if signalled = 0 && s.count = 0 then s.fired + 1 else s.fired }

/-- A search session over `n` schedulable services: the counter starts at
`n`, their cancel events start cleared, and the given steps run in order. -/
def runSession (n : Nat) (steps : List SessStep) : SessSt :=
  steps.foldl sessStep { count := n, flags := List.replicate n false, fired := 0 }

/-! ## MusicBrainz broadening search: musicbrainz.py lines 38-142 (C8) -/

/-- Parameters of one `musicbrainzngs.search_releases` call as built by
`MusicBrainzRetriever.search_album_candidates`: the base parameters
(`release`, optional `artist`, `limit`) plus the per-attempt `strict`,
`status` and `primarytype` settings. -/
structure MBQuery where
  release : String
  artist : Option String
  limit : Nat
  strict : Bool
  status : Option String
  primarytype : Option String
  deriving Repr, DecidableEq

/-- `base_api_params` (lines 52-57): `release`, `limit`, and `artist` only
when non-empty. -/
def mbBase (artist album : String) : MBQuery :=
  { release := album
    artist := if artist = "" then none else some artist
    limit := 25
    strict := false
    status := none
    primarytype := none }

/-- Attempt 1 (lines 66-72): strict, Official, any type. -/
def mbQuery1 (artist album : String) : MBQuery :=
  { mbBase artist album with strict := true, status := some "Official" }

/-- Attempt 2 (lines 84-89): non-strict, Official, preferred primary
types. -/
def mbQuery2 (artist album : String) : MBQuery :=
  { mbBase artist album with
    strict := false
    status := some "Official"
    primarytype := some "Album OR EP OR Single" }

/-- Attempt 3 (line 100): non-strict, any type, any status. -/
def mbQuery3 (artist album : String) : MBQuery :=
  { mbBase artist album with strict := false }

/-- Outcome of the release-search phase of
`MusicBrainzRetriever.search_album_candidates`. -/
inductive MBOutcome where
  | raisesInput
  | cancelledEmpty
  | raisedErr
  | ok (releases : List Nat)
  deriving Repr, DecidableEq

/-- The release-search phase together with the log of the
`search_releases` calls it issued, in order. -/
structure MBRun where
  attempts : List MBQuery
  outcome : MBOutcome
  deriving Repr, DecidableEq

/-- The release-search phase of `search_album_candidates` (lines 38-142):
the entry cancellation check, the empty-input guard, then up to three
`search_releases` attempts, each tried only while the accumulated
`release-list` is still empty, each bracketed by cancellation checks (a
cancelled call returns `[]`), with any library exception propagating as a
typed retriever error.  `ok rs` carries the value of
`direct_release_search_results` that the rest of the function (sorting and
candidate construction) consumes; all attempts empty is the valid
zero-result success `ok []` (line 142). -/
def mbSearchReleases (cancel_event : Option (Nat → Bool))
    (env : MBQuery → Except Unit (List Nat)) (artist album : String) : MBRun :=
  if checkCancelled cancel_event 0 then { attempts := [], outcome := .cancelledEmpty }
  else if album = "" && artist = "" then { attempts := [], outcome := .raisesInput }
  else
    let q1 := mbQuery1 artist album
    if checkCancelled cancel_event 1 then { attempts := [], outcome := .cancelledEmpty }
    else
      match env q1 with
      | .error _ => { attempts := [q1], outcome := .raisedErr }
      | .ok r1 =>
        if checkCancelled cancel_event 2 then
          { attempts := [q1], outcome := .cancelledEmpty }
        else if !r1.isEmpty then { attempts := [q1], outcome := .ok r1 }
        else
          let q2 := mbQuery2 artist album
          if checkCancelled cancel_event 3 then
            { attempts := [q1], outcome := .cancelledEmpty }
          else
            match env q2 with
            | .error _ => { attempts := [q1, q2], outcome := .raisedErr }
            | .ok r2 =>
              if checkCancelled cancel_event 4 then
                { attempts := [q1, q2], outcome := .cancelledEmpty }
              else if !r2.isEmpty then { attempts := [q1, q2], outcome := .ok r2 }
              else
                let q3 := mbQuery3 artist album
                if checkCancelled cancel_event 5 then
                  { attempts := [q1, q2], outcome := .cancelledEmpty }
                else
                  match env q3 with
                  | .error _ => { attempts := [q1, q2, q3], outcome := .raisedErr }
                  | .ok r3 =>
                    if checkCancelled cancel_event 6 then
                      { attempts := [q1, q2, q3], outcome := .cancelledEmpty }
                    else { attempts := [q1, q2, q3], outcome := .ok r3 }

/-! ## HTTP GET with Cloudscraper fallback: base_retriever.py (C7) -/

/-- The typed errors `_execute_http_get` can raise: `RetrieverAPIError`
carries an optional HTTP status code; network, data and base errors carry
none. -/
inductive ReqErr where
  | apiErr (status : Option Int)
  | networkErr
  | dataErr
  | otherErr
  deriving Repr, DecidableEq

/-- What one `_execute_http_get` call does: return a response, return
`None` (cancelled before an exception), or raise a typed error. -/
inductive GetOutcome where
  | ok (resp : Nat)
  | cancelledNone
  | raised (e : ReqErr)
  deriving Repr, DecidableEq

/-- The scraper-related instance fields of `AbstractImageRetriever`:
`self.scraper_instance is not None` and `self._attempted_scraper_init`. -/
structure ScraperState where
  scraperReady : Bool
  attemptedInit : Bool
  deriving Repr, DecidableEq

/-- Environment of one `_perform_http_get_request` call: the outcome of the
initial `_execute_http_get`, the outcome of the fallback one (read only if
that call is made), whether `import cloudscraper` succeeds, and whether
`create_scraper()` succeeds. -/
structure HttpEnv where
  firstGet : GetOutcome
  retryGet : GetOutcome
  moduleAvailable : Bool
  createOk : Bool

/-- `_try_init_scraper` (lines 235-268): succeed immediately if an instance
exists; never retry after a failed attempt; otherwise mark the attempt and
try importing the module and creating the scraper. -/
def tryInitScraper (st : ScraperState) (env : HttpEnv) : ScraperState × Bool :=
  if st.scraperReady then (st, true)
  else if st.attemptedInit then (st, false)
  else
    let st1 := { st with attemptedInit := true }
    if !env.moduleAvailable then (st1, false)
    else if env.createOk then ({ st1 with scraperReady := true }, true)
    else (st1, false)

/-- Trace of one `_perform_http_get_request` call: its overall outcome, the
updated scraper fields, whether the first GET used the scraper, whether a
second (fallback) GET was issued, and whether `_try_init_scraper` was
invoked. -/
structure HttpRun where
  result : GetOutcome
  state : ScraperState
  firstUsedScraper : Bool
  retried : Bool
  initTried : Bool
  deriving Repr, DecidableEq

/-- `_perform_http_get_request` (lines 356-414): the initial GET uses the
existing scraper instance if any, else plain `requests`; on a
`RetrieverAPIError` with status exactly 403 or 503, when the fallback is
enabled and no scraper was used in the first attempt, the scraper is
(lazily) initialized and the request retried once through it, the retry's
outcome being final; in every other case the first outcome stands. -/
def performHttpGetRequest (st : ScraperState) (env : HttpEnv)
    (expectHtmlCloudflare : Bool) : HttpRun :=
  let usedScraper := st.scraperReady
  match env.firstGet with
  | .ok r =>
    { result := .ok r, state := st, firstUsedScraper := usedScraper,
      retried := false, initTried := false }
  | .cancelledNone =>
    { result := .cancelledNone, state := st, firstUsedScraper := usedScraper,
      retried := false, initTried := false }
  | .raised e =>
    match e with
    | .apiErr s =>
      if expectHtmlCloudflare && (s = some 403 || s = some 503) && !usedScraper then
        let (st2, initOk) := tryInitScraper st env
        if initOk && st2.scraperReady then
          { result := env.retryGet, state := st2, firstUsedScraper := usedScraper,
            retried := true, initTried := true }
        else
          { result := .raised (.apiErr s), state := st2,
            firstUsedScraper := usedScraper, retried := false, initTried := true }
      else
        { result := .raised (.apiErr s), state := st,
          firstUsedScraper := usedScraper, retried := false, initTried := false }
    | e0 =>
      { result := .raised e0, state := st, firstUsedScraper := usedScraper,
        retried := false, initTried := false }

/-- Does a `GetOutcome` carry a `RetrieverAPIError` whose status is exactly
403 or 503? -/
def cfStatus : GetOutcome → Bool
  | .raised (.apiErr s) => s = some 403 || s = some 503
  | _ => false

/-! ## Dimension resolution without a network probe (C9) -/

/-- A loosely-typed value held in an `extra_data` bag, as far as the
`isinstance(v, int)` checks of discogs.py can see it. -/
inductive PyVal where
  | intv (n : Int)
  | nonint
  deriving Repr, DecidableEq

/-- Python `str.capitalize()`: first character upper-cased, the rest
lower-cased. -/
def pyCapitalize (s : String) : String :=
  match s.toList with
  | [] => ""
  | c :: cs => String.mk (c.toUpper :: cs.map Char.toLower)

/-- `original_type_str` computation of `DiscogsRetriever.resolve_image_details`
(lines 410-413): a truthy string `discogs_image_type` is capitalized,
anything else leaves `None`. -/
def discogsTypeOf (dType : Option String) : Option String :=
  match dType with
  | some t => if t = "" then none else some (pyCapitalize t)
  | none => none

/-- `DiscogsRetriever.resolve_image_details` (discogs.py lines 383-424).
Inputs: the `width`/`height`/`discogs_image_type` entries of the
`PotentialImage`'s `extra_data`, the cancellation oracle (indexed by
checkpoint in call order) and the result a base-class dimension probe would
return.  Output: the resolved `ImageResult` (or `None`) and whether the
network dimension probe (`get_image_dimensions`) was invoked. -/
def discogsResolve (pi_ : PotentialImage) (extraW extraH : Option PyVal)
    (dType : Option String) (cancel : Nat → Bool)
    (probeRes : Option Int × Option Int) : Option ImageResult × Bool :=
  if cancel 0 then (none, false)
  else
    let dims0 : Option Int × Option Int :=
      match extraW, extraH with
      | some w, some h =>
        match w, h with
        | .intv wv, .intv hv =>
          if wv > 0 && hv > 0 then (some wv, some hv) else (none, none)
        | _, _ => (none, none)
      | _, _ => (none, none)
    let (dims, probed) :=
      match dims0 with
      | (some wv, some hv) => (((some wv : Option Int), (some hv : Option Int)), false)
      | _ =>
        if cancel 1 then ((none, none), false)
        else (probeRes, true)
    if !probed && dims0.1 = none then (none, false)
    else if cancel (if probed then 2 else 1) then (none, probed)
    else
      match dims with
      | (some wv, some hv) =>
        if wv > 0 && hv > 0 then
          (some (ImageResult.from_potential_image pi_ wv hv
            { original_type := some (discogsTypeOf dType) }), probed)
        else (none, probed)
      | _ => (none, probed)

/-- Numeric value of a digit run. -/
def parseDigits (ds : List Char) : Nat :=
  ds.foldl (fun a c => a * 10 + (c.toNat - 48)) 0

/-- Does the regex `/(\d+x\d+|\d+x0|0x\d+)/` of lastfm.py match at this
position (the three alternatives together are exactly a
slash-digits-x-digits-slash segment)?  Returns the two parsed numbers. -/
def matchDimsAt : List Char → Option (Nat × Nat)
  | '/' :: rest =>
    let (d1, r1) := rest.span Char.isDigit
    if d1.isEmpty then none
    else
      match r1 with
      | 'x' :: r2 =>
        let (d2, r3) := r2.span Char.isDigit
        if d2.isEmpty then none
        else
          match r3 with
          | '/' :: _ => some (parseDigits d1, parseDigits d2)
          | _ => none
      | _ => none
  | _ => none

/-- `re.search` of the dimension pattern over the URL: the leftmost
position where the segment matches. -/
def findDims : List Char → Option (Nat × Nat)
  | [] => none
  | c :: cs =>
    match matchDimsAt (c :: cs) with
    | some p => some p
    | none => findDims cs

/-- `LastFmRetriever.get_image_dimensions` (lastfm.py lines 32-51): parse
width and height out of the URL when a dimension segment is present (a
zero side is replaced by the other side, a fully zero segment falls
through), otherwise fall back to the base-class streamed probe.  The
second component records whether the probe was invoked. -/
def lastfmGetImageDimensions (url : List Char) (cancel : Nat → Bool)
    (probeRes : Option Int × Option Int) : (Option Int × Option Int) × Bool :=
  if cancel 0 then ((none, none), false)
  else
    match findDims url with
    | some (w, h) =>
      if w > 0 && h = 0 then ((some (w : Int), some (w : Int)), false)
      else if h > 0 && w = 0 then ((some (h : Int), some (h : Int)), false)
      else if w > 0 && h > 0 then ((some (w : Int), some (h : Int)), false)
      else (probeRes, true)
    | none => (probeRes, true)

/-- `LastFmRetriever.resolve_image_details` (lastfm.py lines 394-420): its
own two cancellation checkpoints bracket a call to the service's
`get_image_dimensions`; a truthy width and height produce the
`ImageResult` via `from_potential_image` with no overrides. -/
def lastfmResolve (pi_ : PotentialImage) (entryCancelled afterCancelled : Bool)
    (dimsCancel : Nat → Bool) (probeRes : Option Int × Option Int) :
    Option ImageResult × Bool :=
  if entryCancelled then (none, false)
  else
    let r := lastfmGetImageDimensions pi_.full_image_url.toList dimsCancel probeRes
    (if afterCancelled then none
     else
      match r.1 with
      | (some wv, some hv) =>
        if wv ≠ 0 && hv ≠ 0 then
          some (ImageResult.from_potential_image pi_ wv hv {})
        else none
      | _ => none, r.2)

/-! ## Observation helpers for the theorems -/

/-- Is this one of the three batch-outcome events
(`ServiceBatchSucceeded` / `ServiceBatchCancelled` / `ServiceBatchErrored`)? -/
def isBatchOutcome : Event → Bool
  | .batchCompleted _ => true
  | .batchCancelled => true
  | .batchErrored => true
  | _ => false

/-- How many batch-outcome events an event list contains. -/
def outcomeCount (es : List Event) : Nat :=
  es.countP fun e => isBatchOutcome e

/-- The context a loop exit carries, if any. -/
def exitCtx : LoopExit → Option BatchCtx
  | .finished c => some c
  | .raised c => some c
  | .diverged => none

/-- The context a body-step result carries, if any. -/
def stepCtx : StepRes → Option BatchCtx
  | .next c => some c
  | .leave e => exitCtx e

/-- The freshly reset per-service state (empty queues, no active candidate,
cleared flags). -/
def emptySvcState : SvcState :=
  { candidatesQueue := []
    currentPIs := []
    activeCandidate := none
    isListing := false
    allProcessed := false }

/-- A batch environment with no cancellation, empty successful listings, no
concurrent interference and reliable submission. -/
def quietBatchEnv : BatchEnv :=
  { cancel := fun _ => false
    listing := fun _ => .ok []
    interfere := fun _ s => s
    submitOk := fun _ => true }

/-- An initial-search environment in which the search raises and the
cancellation flag is observed from the third checkpoint on (the two
exception-handler checks), with no shutdown at conclusion. -/
def cancelledErrorInitEnv (countBefore : Nat) : InitEnv :=
  { cancel := fun i => decide (2 ≤ i)
    stillConfigured := true
    searchResult := .error ()
    stExisting := emptySvcState
    batchEnv := quietBatchEnv
    initialBatchSize := 5
    frontOnly := false
    fuel := 0
    countBefore := countBefore
    shutdownAtConclusion := false }

/-! # Theorems -/

/-- C3: an `ImageResult` produced from a `PotentialImage` P (every
`from_potential_image` call whose overrides do not replace
`source_candidate`, which none in the repository do) has `album_name` and
`artist_name` equal to P's candidate's, for all inputs including `None`
fields; and on every `ImageResult` the two names are derived properties
read through `source_candidate`, never independent copies. -/
theorem c3_names_read_through_candidate (pi_ : PotentialImage) (w h : Int)
    (ov : Overrides) (hsc : ov.source_candidate = none) :
    (ImageResult.from_potential_image pi_ w h ov).album_name
        = pi_.source_candidate.album_name ∧
    (ImageResult.from_potential_image pi_ w h ov).artist_name
        = pi_.source_candidate.artist_name ∧
    (∀ r : ImageResult, r.album_name = r.source_candidate.album_name ∧
      r.artist_name = r.source_candidate.artist_name) := by
  refine ⟨?_, ?_, fun r => ⟨rfl, rfl⟩⟩ <;>
    simp [ImageResult.from_potential_image, ImageResult.album_name,
      ImageResult.artist_name, hsc]

/-- Witness for C3 at a concrete input with `None` name fields. -/
theorem c3_names_read_through_candidate_witness :
    (ImageResult.from_potential_image
      { identifier := 7, thumbnail_url := "t", full_image_url := "f",
        source_candidate := { identifier := 1 } } 600 600 {}).album_name
      = (none : Option String) :=
  (c3_names_read_through_candidate
    { identifier := 7, thumbnail_url := "t", full_image_url := "f",
      source_candidate := { identifier := 1 } } 600 600 {} rfl).1

/-- C4 counterexample: the Discogs retriever in a configuration without a
personal access token raises plain `RetrieverError`, not
`RetrieverInputError`, on a both-terms-empty search — the token check
precedes the emptiness check. -/
theorem c4_counterexample :
    searchGuard RetrieverKind.discogs
        { cancelled := false, hasToken := false, clientReady := false } "" ""
      = SearchStart.raisesOther ∧
    SearchStart.raisesOther ≠ SearchStart.raisesInput := by
  exact ⟨rfl, by decide⟩

/-- C4 amended: for every retriever whose call is not already cancelled at
the entry checkpoint and (for Discogs) whose client is configured with a
token and initialized, `search_album_candidates` with both the artist and
album arguments empty raises `RetrieverInputError`. -/
theorem c4_empty_search_raises_input (k : RetrieverKind) (ctx : GuardCtx)
    (hc : ctx.cancelled = false)
    (hd : k = RetrieverKind.discogs → ctx.hasToken = true ∧ ctx.clientReady = true) :
    searchGuard k ctx "" "" = SearchStart.raisesInput := by
  obtain ⟨c, t, r⟩ := ctx
  subst hc
  cases k
  case discogs =>
    obtain ⟨ht, hr⟩ := hd rfl
    subst ht; subst hr
    rfl
  all_goals rfl

/-- Witness for C4 amended, at the Discogs retriever with an operational
client. -/
theorem c4_empty_search_raises_input_witness :
    searchGuard RetrieverKind.discogs
        { cancelled := false, hasToken := true, clientReady := true } "" ""
      = SearchStart.raisesInput :=
  c4_empty_search_raises_input RetrieverKind.discogs
    { cancelled := false, hasToken := true, clientReady := true } rfl
    (fun _ => ⟨rfl, rfl⟩)

/-- C10: the cancel-event parameter is optional; with `cancel_event = None`
the base `_check_cancelled` returns `False` at every checkpoint, so such a
call behaves exactly like one whose event exists but is never set — shown
both on the base check itself and on a whole retriever operation (the
MusicBrainz release search). -/
theorem c10_none_cancel_event_never_cancelled :
    (∀ t, checkCancelled none t = false) ∧
    (∀ t, checkCancelled none t = checkCancelled (some fun _ => false) t) ∧
    (∀ (env : MBQuery → Except Unit (List Nat)) (artist album : String),
      mbSearchReleases none env artist album
        = mbSearchReleases (some fun _ => false) env artist album) :=
  ⟨fun _ => rfl, fun _ => rfl, fun _ _ _ => rfl⟩

/-- C5 counterexample: `request_more` for a service that is enabled in the
passed config but unknown to the manager (no retriever/state instance)
emits `ServiceError` followed by `ServiceBatchErrored` — not the
cancellation-style `ServiceBatchCancelled` acknowledgment the claim
asserts. -/
theorem c5_counterexample :
    requestMoreForService
        { shutdown := false, config := [("Discogs", true)],
          serviceName := "Discogs", retrieverKnown := false,
          stateKnown := false, cancelSet := false }
      = { events := [.serviceError, .batchErrored], submitted := false } ∧
    Event.batchCancelled ∉ [Event.serviceError, Event.batchErrored] := by
  exact ⟨rfl, by decide⟩

/-- C5 amended: `request_more` during shutdown, or for a service disabled
or absent in the passed config, or for a known service whose cancel event
is set, performs no batch work and acknowledges with exactly one
`ServiceBatchCancelled`; for a service enabled in the config but without a
retriever or state instance it emits `ServiceError` then
`ServiceBatchErrored` and performs no batch work; otherwise it submits
exactly one batch-fill task and emits nothing synchronously. -/
theorem c5_request_more_dispatch (c : ReqMoreCtx) :
    (c.shutdown = true →
      requestMoreForService c = { events := [.batchCancelled], submitted := false }) ∧
    (c.shutdown = false →
      (c.config.any fun nb => nb.1 = c.serviceName && nb.2) = false →
      requestMoreForService c = { events := [.batchCancelled], submitted := false }) ∧
    (c.shutdown = false →
      (c.config.any fun nb => nb.1 = c.serviceName && nb.2) = true →
      (c.retrieverKnown = false ∨ c.stateKnown = false) →
      requestMoreForService c
        = { events := [.serviceError, .batchErrored], submitted := false }) ∧
    (c.shutdown = false →
      (c.config.any fun nb => nb.1 = c.serviceName && nb.2) = true →
      c.retrieverKnown = true → c.stateKnown = true → c.cancelSet = true →
      requestMoreForService c = { events := [.batchCancelled], submitted := false }) ∧
    (c.shutdown = false →
      (c.config.any fun nb => nb.1 = c.serviceName && nb.2) = true →
      c.retrieverKnown = true → c.stateKnown = true → c.cancelSet = false →
      requestMoreForService c = { events := [], submitted := true }) := by
  refine ⟨?_, ?_, ?_, ?_, ?_⟩ <;> intros <;>
    simp_all [requestMoreForService]

/-- Witness for C5 amended: the disabled-service case acknowledges with a
single `ServiceBatchCancelled`. -/
theorem c5_request_more_dispatch_witness :
    requestMoreForService
        { shutdown := false, config := [("Bandcamp", false)],
          serviceName := "Bandcamp", retrieverKnown := true,
          stateKnown := true, cancelSet := false }
      = { events := [.batchCancelled], submitted := false } :=
  (c5_request_more_dispatch
    { shutdown := false, config := [("Bandcamp", false)],
      serviceName := "Bandcamp", retrieverKnown := true,
      stateKnown := true, cancelSet := false }).2.1 rfl (by decide)

/-- C2 counterexample: a session over one service whose initial search
concludes (firing `AllSearchesConcluded` as the counter reaches zero)
followed by two `cancel_current_search` invocations fires the event a
second time — the second invocation finds nothing left to signal and the
counter already zero, and re-emits (lines 516-521 of
service_manager.py). -/
theorem c2_counterexample :
    (runSession 1 [SessStep.conclude, SessStep.cancelSearch,
      SessStep.cancelSearch]).fired = 2 := by
  decide

/-- C2 amended: for a session of `n ≥ 1` schedulable services whose counter
interactions are exactly the `n` initial-search task conclusions (no
shutdown), `AllSearchesConcluded` fires exactly once — at the conclusion
that brings the shared counter to zero — and one subsequent
`cancel_current_search` that still finds services to signal does not
re-fire it; only a `cancel_current_search` arriving when the counter is
already zero and every enabled service's cancel flag is already set emits
it again. -/
theorem c2_concluded_fires_once (n : Nat) (hn : 1 ≤ n) :
    (runSession n (List.replicate n SessStep.conclude)).fired = 1 ∧
    (runSession n (List.replicate n SessStep.conclude
      ++ [SessStep.cancelSearch])).fired = 1 := by
  have key : ∀ (c : Nat) (flags : List Bool) (f : Nat),
      (List.replicate (c + 1) SessStep.conclude).foldl sessStep
        { count := c + 1, flags := flags, fired := f }
        = { count := 0, flags := flags, fired := f + 1 } := by
    intro c
    induction c with
    | zero => intro flags f; simp [sessStep]
    | succ m ih =>
      intro flags f
      rw [List.replicate_succ, List.foldl_cons]
      have hstep : sessStep { count := m + 1 + 1, flags := flags, fired := f }
          SessStep.conclude = { count := m + 1, flags := flags, fired := f } := by
        simp [sessStep]
      rw [hstep, ih]
  obtain ⟨m, rfl⟩ : ∃ m, n = m + 1 := ⟨n - 1, (Nat.succ_pred_eq_of_pos hn).symm⟩
  have h1 : runSession (m + 1) (List.replicate (m + 1) SessStep.conclude)
      = { count := 0, flags := List.replicate (m + 1) false, fired := 1 } := by
    unfold runSession
    rw [key]
  refine ⟨by rw [h1], ?_⟩
  unfold runSession
  rw [List.foldl_append]
  show (sessStep ((List.replicate (m + 1) SessStep.conclude).foldl sessStep
    { count := m + 1, flags := List.replicate (m + 1) false, fired := 0 })
    SessStep.cancelSearch).fired = 1
  rw [key]
  simp [sessStep, List.filter_replicate]

/-- Witness for C2 amended at a three-service session. -/
theorem c2_concluded_fires_once_witness :
    (runSession 3 (List.replicate 3 SessStep.conclude)).fired = 1 :=
  (c2_concluded_fires_once 3 (by decide)).1

/-- C8: the MusicBrainz release search performs at most three
`search_releases` attempts in the fixed order strict-Official →
non-strict-Official-preferred-types → unfiltered, stops at the first
attempt whose `release-list` is non-empty, and the rest of the function
consumes exactly that attempt's list (stated for an uncancelled call whose
attempts all succeed at the API level). -/
theorem c8_mb_three_attempt_broadening (env : MBQuery → Except Unit (List Nat))
    (artist album : String) (hne : ¬(album = "" ∧ artist = ""))
    (l1 l2 l3 : List Nat)
    (h1 : env (mbQuery1 artist album) = .ok l1)
    (h2 : env (mbQuery2 artist album) = .ok l2)
    (h3 : env (mbQuery3 artist album) = .ok l3) :
    mbSearchReleases none env artist album
      = if l1 ≠ [] then
          { attempts := [mbQuery1 artist album], outcome := .ok l1 }
        else if l2 ≠ [] then
          { attempts := [mbQuery1 artist album, mbQuery2 artist album],
            outcome := .ok l2 }
        else
          { attempts := [mbQuery1 artist album, mbQuery2 artist album,
              mbQuery3 artist album], outcome := .ok l3 } := by
  have hguard : (decide (album = "") && decide (artist = "")) = false := by
    by_cases ha : album = "" <;> by_cases hb : artist = "" <;> simp_all
  by_cases hl1 : l1 = [] <;> by_cases hl2 : l2 = [] <;>
    simp [mbSearchReleases, checkCancelled, hguard, h1, h2, h3, hl1, hl2]

/-- Witness for C8: with every attempt succeeding and the first returning
results, only the strict attempt is made and its list is used. -/
theorem c8_mb_three_attempt_broadening_witness :
    mbSearchReleases none (fun _ => .ok [5]) "a" "b"
      = { attempts := [mbQuery1 "a" "b"], outcome := .ok [5] } := by
  have h := c8_mb_three_attempt_broadening (fun _ => .ok [5]) "a" "b"
    (by simp) [5] [5] [5] rfl rfl rfl
  simpa using h

/-- C7: `_perform_http_get_request` attempts a plain GET first (the scraper
is used initially only if an instance already exists); exactly one retry
through the browser-challenge-solving client happens precisely when the
fallback is enabled for the request, the first attempt raised an API error
with status exactly 403 or 503, no scraper was used in that attempt, and
the lazily-attempted scraper initialization (first need only, never after a
failed attempt) succeeds; the final outcome is the retry's when a retry was
made and the first attempt's otherwise — so errors surface only if the
retry also fails, and no fallback occurs for other statuses or for requests
not marked as expecting the challenge. -/
theorem c7_cloudflare_fallback (st : ScraperState) (env : HttpEnv)
    (expectCF : Bool) :
    (performHttpGetRequest st env expectCF).firstUsedScraper = st.scraperReady ∧
    (performHttpGetRequest st env expectCF).retried
      = (expectCF && cfStatus env.firstGet && !st.scraperReady &&
         !st.attemptedInit && env.moduleAvailable && env.createOk) ∧
    (performHttpGetRequest st env expectCF).initTried
      = (expectCF && cfStatus env.firstGet && !st.scraperReady) ∧
    (performHttpGetRequest st env expectCF).result
      = (if (performHttpGetRequest st env expectCF).retried then env.retryGet
         else env.firstGet) := by
  obtain ⟨fg, rg, ma, co⟩ := env
  obtain ⟨sr, ai⟩ := st
  rcases fg with r | _ | e
  · simp [performHttpGetRequest, cfStatus]
  · simp [performHttpGetRequest, cfStatus]
  · rcases e with s | _ | _ | _
    · cases sr <;> cases ai <;> cases expectCF <;> cases ma <;> cases co <;>
        by_cases hs : (s = some 403 ∨ s = some 503) <;>
        simp [performHttpGetRequest, cfStatus, tryInitScraper, hs] <;>
        exact not_or.mp hs
    · simp [performHttpGetRequest, cfStatus]
    · simp [performHttpGetRequest, cfStatus]
    · simp [performHttpGetRequest, cfStatus]

/-- Helper for C9: when the Last.fm image URL carries a dimension segment
that is not fully zero, `get_image_dimensions` answers from the URL and
never invokes the base-class streamed probe. -/
theorem lastfm_dims_from_url_no_probe (url : List Char)
    (probeRes : Option Int × Option Int) (w h : Nat)
    (hf : findDims url = some (w, h)) (hnz : ¬(w = 0 ∧ h = 0)) :
    (lastfmGetImageDimensions url (fun _ => false) probeRes).2 = false := by
  rcases Nat.eq_zero_or_pos w with hw | hw <;>
    rcases Nat.eq_zero_or_pos h with hh | hh
  · exact absurd ⟨hw, hh⟩ hnz
  · simp [lastfmGetImageDimensions, hf, hw, hh, Nat.ne_of_gt hh]
  · simp [lastfmGetImageDimensions, hf, hw, hh, Nat.ne_of_gt hw]
  · simp [lastfmGetImageDimensions, hf, hw, hh, Nat.ne_of_gt hw, Nat.ne_of_gt hh]

/-- C9: dimension resolution prefers backend-supplied values and skips the
network probe: Discogs `resolve_image_details` with valid integer
`width`/`height` in `extra_data` resolves from them without probing, and
Last.fm `get_image_dimensions` (hence `resolve_image_details`) answers
from a non-zero dimension segment encoded in the URL without probing. -/
theorem c9_backend_dims_never_probe :
    (∀ (pi_ : PotentialImage) (w h : Int) (dType : Option String)
        (probeRes : Option Int × Option Int), 0 < w → 0 < h →
      discogsResolve pi_ (some (PyVal.intv w)) (some (PyVal.intv h)) dType
          (fun _ => false) probeRes
        = (some (ImageResult.from_potential_image pi_ w h
            { original_type := some (discogsTypeOf dType) }), false)) ∧
    (∀ (url : List Char) (probeRes : Option Int × Option Int) (w h : Nat),
      findDims url = some (w, h) → ¬(w = 0 ∧ h = 0) →
      (lastfmGetImageDimensions url (fun _ => false) probeRes).2 = false) ∧
    (∀ (pi_ : PotentialImage) (probeRes : Option Int × Option Int) (w h : Nat),
      findDims pi_.full_image_url.toList = some (w, h) → ¬(w = 0 ∧ h = 0) →
      (lastfmResolve pi_ false false (fun _ => false) probeRes).2 = false) := by
  refine ⟨?_, lastfm_dims_from_url_no_probe, ?_⟩
  · intro pi_ w h dType probeRes hw hh
    simp [discogsResolve, hw, hh, Int.ne_of_gt hw, Int.ne_of_gt hh]
  · intro pi_ probeRes w h hf hnz
    have hr := lastfm_dims_from_url_no_probe pi_.full_image_url.toList probeRes
      w h hf hnz
    exact hr

/-- Witness for C9: a Discogs image with `600x600` in `extra_data` and a
Last.fm URL with a `/300x300/` segment both resolve without probing. -/
theorem c9_backend_dims_never_probe_witness :
    discogsResolve
        { identifier := 1, thumbnail_url := "t", full_image_url := "f",
          source_candidate := { identifier := 2 } }
        (some (PyVal.intv 600)) (some (PyVal.intv 600)) none
        (fun _ => false) (none, none)
      = (some (ImageResult.from_potential_image
          { identifier := 1, thumbnail_url := "t", full_image_url := "f",
            source_candidate := { identifier := 2 } } 600 600
          { original_type := some none }), false) ∧
    (lastfmGetImageDimensions "/300x300/".toList (fun _ => false)
      (none, none)).2 = false :=
  ⟨c9_backend_dims_never_probe.1
      { identifier := 1, thumbnail_url := "t", full_image_url := "f",
        source_candidate := { identifier := 2 } }
      600 600 none (none, none) (by decide) (by decide),
   c9_backend_dims_never_probe.2.1 "/300x300/".toList (none, none) 300 300
      (by decide) (by decide)⟩

/-- Helper: appending one batch-outcome event increments the outcome
count by one. -/
theorem outcomeCount_append_one (es : List Event) (e : Event)
    (he : isBatchOutcome e = true) :
    outcomeCount (es ++ [e]) = outcomeCount es + 1 := by
  simp [outcomeCount, List.countP_append, he]

/-- Helper: the post-dispatch cleanup (lines 422-424) emits no
batch-outcome event. -/
theorem sendTail_outcome (env : BatchEnv) (ctx ctx' : BatchCtx)
    (h : stepCtx (sendTail env ctx) = some ctx') :
    outcomeCount ctx'.events = outcomeCount ctx.events := by
  unfold sendTail at h
  simp only [BatchCtx.check] at h
  repeat' split at h
  all_goals try simp only [stepCtx, exitCtx, Option.some.injEq] at h
  all_goals first
    | (subst h; simp [outcomeCount, isBatchOutcome, List.countP_append])

/-- Helper: the dispatch step of the batch loop (lines 414-424) emits no
batch-outcome event, whichever way it relinquishes control. -/
theorem sendStep_outcome (env : BatchEnv) (ctx ctx' : BatchCtx)
    (h : stepCtx (sendStep env ctx) = some ctx') :
    outcomeCount ctx'.events = outcomeCount ctx.events := by
  unfold sendStep at h
  simp only [BatchCtx.check, BatchCtx.emit, BatchCtx.submitStep] at h
  repeat' split at h
  all_goals try simp only [stepCtx, exitCtx, Option.some.injEq] at h
  all_goals first
    | exact (sendTail_outcome _ _ _ h).trans
        (by simp [outcomeCount, isBatchOutcome, List.countP_append])
    | (subst h; simp [outcomeCount, isBatchOutcome, List.countP_append])

/-- Helper: the merge-back continuation after a listing call emits no
batch-outcome event. -/
theorem afterListing_outcome (env : BatchEnv) (copied : AlbumCandidate)
    (newPIs : List PotentialImage) (ctx ctx' : BatchCtx)
    (h : stepCtx (afterListing env copied newPIs ctx) = some ctx') :
    outcomeCount ctx'.events = outcomeCount ctx.events := by
  unfold afterListing at h
  simp only [BatchCtx.check, BatchCtx.interfereStep] at h
  repeat' split at h
  all_goals try simp only [stepCtx, exitCtx, Option.some.injEq] at h
  all_goals first
    | exact (sendStep_outcome _ _ _ h).trans
        (by simp [outcomeCount, isBatchOutcome, List.countP_append])
    | (subst h; simp [outcomeCount, isBatchOutcome, List.countP_append])

/-- Helper: one whole iteration of the batch loop body emits no
batch-outcome event. -/
theorem batchBody_outcome (env : BatchEnv) (fo : Bool) (ctx ctx' : BatchCtx)
    (h : stepCtx (batchBody env fo ctx) = some ctx') :
    outcomeCount ctx'.events = outcomeCount ctx.events := by
  unfold batchBody at h
  simp only [BatchCtx.check, BatchCtx.emit, BatchCtx.interfereStep,
    BatchCtx.listingStep] at h
  repeat' split at h
  all_goals try simp only [stepCtx, exitCtx, Option.some.injEq] at h
  all_goals first
    | exact (sendStep_outcome _ _ _ h).trans
        (by simp [outcomeCount, isBatchOutcome, List.countP_append])
    | exact (afterListing_outcome _ _ _ _ _ h).trans
        (by simp [outcomeCount, isBatchOutcome, List.countP_append])
    | (subst h; simp [outcomeCount, isBatchOutcome, List.countP_append])

/-- Helper: the whole batch loop emits no batch-outcome event: the context
any of its exits carries has the same outcome-event count as the starting
context. -/
theorem batchLoop_outcome (env : BatchEnv) (n : Nat) (fo : Bool) :
    ∀ (fuel : Nat) (ctx ctx' : BatchCtx),
      exitCtx (batchLoop env n fo fuel ctx) = some ctx' →
      outcomeCount ctx'.events = outcomeCount ctx.events := by
  intro fuel
  induction fuel with
  | zero => intro ctx ctx' h; simp [batchLoop, exitCtx] at h
  | succ fuel ih =>
    intro ctx ctx' h
    simp only [batchLoop] at h
    by_cases hs : ctx.sent < n
    · rw [if_pos hs] at h
      rcases hb : batchBody env fo ctx with e | ctx2
      · rw [hb] at h
        refine batchBody_outcome env fo ctx ctx' ?_
        rw [hb]
        exact h
      · rw [hb] at h
        refine (ih ctx2 ctx' h).trans (batchBody_outcome env fo ctx ctx2 ?_)
        rw [hb]
        rfl
    · rw [if_neg hs] at h
      simp only [exitCtx, Option.some.injEq] at h
      rw [← h]

/-- C1: every completed invocation of `_process_image_batch_for_service`
emits exactly one of the three batch-outcome events
(`ServiceBatchSucceeded` / `ServiceBatchCancelled` / `ServiceBatchErrored`)
— never zero and never two — including runs in which the invocation body
raises an exception. -/
theorem c1_exactly_one_batch_outcome (env : BatchEnv) (numToSend : Nat)
    (frontOnly : Bool) (st0 : SvcState) (fuel : Nat) (es : List Event)
    (h : processImageBatch env numToSend frontOnly st0 fuel = .done es) :
    outcomeCount es = 1 := by
  unfold processImageBatch at h
  simp only [BatchCtx.check] at h
  by_cases hc : env.cancel 0 = true
  · rw [if_pos hc] at h
    simp only [BatchResult.done.injEq] at h
    subst h
    rfl
  · rw [if_neg hc] at h
    rcases hb : batchLoop env numToSend frontOnly fuel
        { state := st0, sent := 0, cIdx := 0 + 1, lIdx := 0, iIdx := 0,
          sIdx := 0, events := [] } with ctx | ctx
    · rw [hb] at h
      have h0 : outcomeCount ctx.events = 0 := by
        have h1 := batchLoop_outcome env numToSend frontOnly fuel _ ctx
          (by rw [hb]; rfl)
        rw [h1]
        rfl
      simp only [finishBatch, BatchCtx.check] at h
      split at h <;>
        · simp only [BatchResult.done.injEq] at h
          subst h
          rw [outcomeCount_append_one]
          · rw [h0]
          · rfl
    · rw [hb] at h
      have h0 : outcomeCount ctx.events = 0 := by
        have h1 := batchLoop_outcome env numToSend frontOnly fuel _ ctx
          (by rw [hb]; rfl)
        rw [h1]
        rfl
      simp only [finishBatch, BatchCtx.check] at h
      split at h <;>
        · simp only [BatchResult.done.injEq] at h
          subst h
          rw [outcomeCount_append_one]
          · rw [h0]
          · rfl
    · rw [hb] at h
      simp [finishBatch] at h

/-- Witness for C1: a completed zero-size batch on an empty state emits
exactly the single event `BatchCompletedSuccessfully(false)`. -/
theorem c1_exactly_one_batch_outcome_witness :
    outcomeCount [Event.batchCompleted false] = 1 :=
  c1_exactly_one_batch_outcome quietBatchEnv 0 false emptySvcState 1
    [Event.batchCompleted false] rfl

/-- C6 counterexample: an initial-search task whose search raises while the
cancellation flag is observed at both exception-handler checkpoints emits
no `ServiceBatchCancelled` at all — it concludes silently through the
counter block — contradicting the claim that the orchestrator reports
cancellation for initial-search tasks. -/
theorem c6_counterexample :
    initialSearch (cancelledErrorInitEnv 1) = .done [Event.allSearchesConcluded] ∧
    Event.batchCancelled ∉ [Event.allSearchesConcluded] := by
  exact ⟨rfl, by decide⟩

/-- C6 amended: cancellation observed concurrently with an exception is
never misreported as a genuine error, but the two tasks differ in what they
do report: a batch-fill task whose body raised reports exactly
`ServiceBatchCancelled` when the flag is observed in its handler, while an
initial-search task whose search raised with the flag observed at both
handler checkpoints emits neither error event nor any cancellation event,
concluding only through the shared counter block (whose events never
include an error or cancellation event). -/
theorem c6_cancel_preferred_over_error :
    (∀ (env : BatchEnv) (ctx : BatchCtx), env.cancel ctx.cIdx = true →
      finishBatch env (LoopExit.raised ctx)
        = .done (ctx.events ++ [Event.batchCancelled])) ∧
    (∀ (env : InitEnv) (err : Unit), env.cancel 0 = false → env.cancel 1 = false →
      env.stillConfigured = true → env.searchResult = .error err →
      env.cancel 2 = true → env.cancel 3 = true →
      initialSearch env
        = .done (concludeEvents env.countBefore env.shutdownAtConclusion)) ∧
    (∀ (n : Nat) (s : Bool),
      Event.serviceError ∉ concludeEvents n s ∧
      Event.batchErrored ∉ concludeEvents n s ∧
      Event.batchCancelled ∉ concludeEvents n s) := by
  refine ⟨?_, ?_, ?_⟩
  · intro env ctx hcanc
    simp [finishBatch, BatchCtx.check, hcanc]
  · intro env err h0 h1 hsc hsr h2 h3
    simp [initialSearch, h0, h1, hsc, hsr, h2, h3]
  · intro n s
    unfold concludeEvents
    split <;> simp

/-- Witness for C6 amended: a raised batch-fill body with the flag set in
the handler yields exactly one `ServiceBatchCancelled`, and a concrete
cancelled initial search emits only the counter block's conclusion
event. -/
theorem c6_cancel_preferred_over_error_witness :
    finishBatch { quietBatchEnv with cancel := fun _ => true }
        (LoopExit.raised
          { state := emptySvcState, sent := 0, cIdx := 4, lIdx := 0,
            iIdx := 0, sIdx := 0, events := [] })
      = .done [Event.batchCancelled] ∧
    initialSearch (cancelledErrorInitEnv 3) = .done (concludeEvents 3 false) := by
  constructor
  · have h := c6_cancel_preferred_over_error.1
      { quietBatchEnv with cancel := fun _ => true }
      { state := emptySvcState, sent := 0, cIdx := 4, lIdx := 0,
        iIdx := 0, sIdx := 0, events := [] }
      rfl
    simpa using h
  · exact c6_cancel_preferred_over_error.2.1 (cancelledErrorInitEnv 3)
      () rfl rfl rfl rfl rfl rfl

end CoverFetcher
